import Mathlib

/-!
Shallow embedding of the `dns_resolver` repository (C++ sources under
`src/`), covering the cache (`DNSCache.cpp`), the persistence layer
(`DNSCachePersistor.cpp`), the metrics accumulator (`DNSMetrics.cpp`),
the event manager (`DNSEvent.cpp`) and the result-processing /
configuration-loading slices of the resolver (`DNSResolver.cpp`).

Modelling conventions:
* wall-clock time (`std::chrono::system_clock::time_point`) is an integer
  number of seconds since the epoch (plain `Int`); all the cache
  arithmetic in the source works at seconds granularity
  (`duration_cast<seconds>`), so nothing is lost;
* C++ `double` values (hit rates, thresholds) are modelled as `ℚ`;
  `static_cast<int64_t>` on a non-negative `double` is truncation toward
  zero, modelled with `Int.tdiv` on the rational's numerator/denominator;
* the `unordered_map<string, DNSRecord>` is an association list with
  unique keys; iteration order and `min_element` tie-breaking are
  unspecified in the source, the list order stands in for them;
* fallible operations return `Bool` (like the source) or pair the result
  with the post-state; a C++ `throw` caught by a caller is modelled by
  returning the (possibly partially mutated) state together with the
  error.
-/

/-- `DNSRecord` from `include/DNSCache.h`.  The C++ struct also carries a
`hostname` field, but for records stored in the cache map it is never
assigned (`DNSCache::update` leaves it default-empty); the map key is the
authoritative hostname, so the model keeps the record keyed by name. -/
structure DNSRecord where
  ip_addresses : List String
  expire_time : Int
  is_valid : Bool
deriving Repr, DecidableEq

/-- `DNSCache` state from `include/DNSCache.h`: the map, the configured
ttl (`ttl_`), `max_size_` (always 10000 in the constructor) and the two
atomic counters. -/
structure DNSCache where
  entries : List (String × DNSRecord)
  ttl : Int
  max_size : Nat
  hits : Nat
  misses : Nat
deriving Repr, DecidableEq

namespace DNSCache

/-- The `DNSCache(ttl)` constructor: empty map, `max_size_(10000)`,
zeroed counters (the constructor's `cleanup()` call is a no-op on the
empty map). -/
def mkCache (ttl : Int) : DNSCache :=
  { entries := [], ttl := ttl, max_size := 10000, hits := 0, misses := 0 }

/-- `cache_.find(hostname)`: first entry with the given key. -/
def lookupEntry (hostname : String) : List (String × DNSRecord) → Option DNSRecord
  | [] => none
  | p :: rest => if p.1 == hostname then some p.2 else lookupEntry hostname rest

/-- `cache_[hostname] = record`: replace in place if the key exists,
append otherwise. -/
def setEntry (hostname : String) (r : DNSRecord) :
    List (String × DNSRecord) → List (String × DNSRecord)
  | [] => [(hostname, r)]
  | p :: rest => if p.1 == hostname then (hostname, r) :: rest else p :: setEntry hostname r rest

/-- `cache_.erase(hostname)` (and `cache_.erase(it)` for the iterator
obtained by `find`). -/
def eraseEntry (hostname : String) (l : List (String × DNSRecord)) :
    List (String × DNSRecord) :=
  l.filter (fun p => p.1 != hostname)

/-- `cache_.erase(min_element(..., by expire_time))`: drop the first
entry whose `expire_time` is minimal. -/
def eraseFirstMin : List (String × DNSRecord) → List (String × DNSRecord)
  | [] => []
  | p :: rest =>
    if rest.all (fun q => decide (p.2.expire_time ≤ q.2.expire_time)) then rest
    else p :: eraseFirstMin rest

/-- `std::ranges::sort` of `(hostname, expire_time)` pairs by ascending
`expire_time` in `DNSCache::cleanup` (insertion sort; the source's sort
order among equal keys is unspecified). -/
def insertByExpire (p : String × DNSRecord) :
    List (String × DNSRecord) → List (String × DNSRecord)
  | [] => [p]
  | q :: rest =>
    if p.2.expire_time ≤ q.2.expire_time then p :: q :: rest
    else q :: insertByExpire p rest

def sortByExpire : List (String × DNSRecord) → List (String × DNSRecord)
  | [] => []
  | p :: rest => insertByExpire p (sortByExpire rest)

/-- `DNSCache::cleanup` (`DNSCache.cpp:100-129`): erase every expired or
invalid entry; then, if the map still holds more than 90% of `max_size_`
entries, bulk-evict the earliest-expiring 20%.
The C++ guard is `size() > max_size_ * 0.9` on `double`s; with
`max_size_ = 10000` that is exactly `size > 9000`, modelled as
`10 * size > 9 * max_size`.  The C++ count is
`static_cast<size_t>(size * 0.2)`, which equals `size / 5` for every
size up to 20000 (checked exhaustively against IEEE-754 doubles). -/
def cleanup (now : Int) (c : DNSCache) : DNSCache :=
  let purged := c.entries.filter (fun p => decide (now < p.2.expire_time) && p.2.is_valid)
  let entries :=
    if purged.length * 10 > c.max_size * 9 then
      let toRemove := ((sortByExpire purged).take (purged.length / 5)).map Prod.fst
      purged.filter (fun p => !(toRemove.contains p.1))
    else purged
  { c with entries := entries }

/-- `DNSCache::update` (`DNSCache.cpp:10-34`): cleanup, evict the
earliest-expiring record when the map is still full, then write the new
record with `expire_time = now + ttl_` and `is_valid = true`. -/
def update (now : Int) (c : DNSCache) (hostname : String) (ips : List String) :
    DNSCache :=
  let c1 := cleanup now c
  let entries1 :=
    if c1.entries.length ≥ c1.max_size then eraseFirstMin c1.entries else c1.entries
  let record : DNSRecord :=
    { ip_addresses := ips, expire_time := now + c1.ttl, is_valid := true }
  { c1 with entries := setEntry hostname record entries1 }

/-- `static_cast<int64_t>(ttl_.count() * 0.2)` in `DNSCache::get`.
For the ttl values exercised here (multiples of 5, e.g. the default
300 s, where the double product is exact) this equals `ttl / 5`. -/
def softRefreshThreshold (ttl : Int) : Int := ttl / 5

/-- `DNSCache::get` (`DNSCache.cpp:36-62`).  Returns the addresses (or
`none`) together with the post-state.  A missing entry counts a miss; an
expired or invalid entry is erased and counts a miss; otherwise the
addresses are returned, a hit is counted, and if the remaining ttl is
strictly below 20% of `ttl_` the record is marked `is_valid = false`
(soft refresh). -/
def get (now : Int) (c : DNSCache) (hostname : String) :
    Option (List String) × DNSCache :=
  match lookupEntry hostname c.entries with
  | none => (none, { c with misses := c.misses + 1 })
  | some record =>
    if now ≥ record.expire_time ∨ record.is_valid = false then
      (none, { c with entries := eraseEntry hostname c.entries, misses := c.misses + 1 })
    else
      let remaining := record.expire_time - now
      let record' :=
        if remaining < softRefreshThreshold c.ttl then { record with is_valid := false }
        else record
      (some record.ip_addresses,
        { c with entries := setEntry hostname record' c.entries, hits := c.hits + 1 })

/-- `DNSCache::remove` (`DNSCache.cpp:64-67`). -/
def remove (c : DNSCache) (hostname : String) : DNSCache :=
  { c with entries := eraseEntry hostname c.entries }

/-- `DNSCache::clear` (`DNSCache.cpp:69-74`): empties the map and resets
both counters. -/
def clear (c : DNSCache) : DNSCache :=
  { c with entries := [], hits := 0, misses := 0 }

/-- `DNSCache::size`. -/
def size (c : DNSCache) : Nat := c.entries.length

/-- `DNSCache::hit_rate` (`DNSCache.cpp:92-98`): floating-point division
of the counters, `0.0` when both are zero. -/
def hit_rate (c : DNSCache) : ℚ :=
  if c.hits + c.misses = 0 then 0
  else (c.hits : ℚ) / ((c.hits : ℚ) + (c.misses : ℚ))

/-- The record currently stored for `hostname` (observer used by the
theorems; `cache_.find`). -/
def findRecord (c : DNSCache) (hostname : String) : Option DNSRecord :=
  lookupEntry hostname c.entries

end DNSCache

/-- One `records[]` object of the persistence file
(`DNSCachePersistor::serializeRecord`, which stores `expire_time`
truncated to whole seconds). -/
structure SavedRecord where
  hostname : String
  ip_addresses : List String
  expire_time : Int
  is_valid : Bool
deriving Repr, DecidableEq

/-- The parsed persistence file: version string, `DNSUtils::getTime()`
timestamp in milliseconds, and the record array. -/
structure CacheFile where
  version : String
  timestamp_ms : Int
  records : List SavedRecord
deriving Repr, DecidableEq

namespace DNSCachePersistor

/-- `MAX_CACHE_AGE = 24 * 60 * 60 * 1000` (one day in milliseconds). -/
def MAX_CACHE_AGE : Int := 24 * 60 * 60 * 1000

/-- `DNSCachePersistor::serializeRecord` plus the hostname fix-up in
`save`: the C++ helper copies `record.hostname` (always empty for cached
records) and `save` immediately overwrites the field with the map key,
so the net serialized hostname is the map key. -/
def serializeRecord (hostname : String) (r : DNSRecord) : SavedRecord :=
  { hostname := hostname, ip_addresses := r.ip_addresses,
    expire_time := r.expire_time, is_valid := r.is_valid }

/-- `DNSCachePersistor::save` (`DNSCachePersistor.cpp:22-50`): emits the
version, the current time in milliseconds, and every record whose
`is_valid` flag is set (expired-but-valid records are saved too). -/
def save (c : DNSCache) (now : Int) : CacheFile :=
  { version := "1.0", timestamp_ms := now * 1000,
    records := c.entries.filterMap fun p =>
      if p.2.is_valid then some (serializeRecord p.1 p.2) else none }

/-- `DNSCachePersistor::load` (`DNSCachePersistor.cpp:52-102`): reject a
wrong version, reject an old file, then re-insert every valid,
unexpired record through `DNSCache::update` (which stamps a fresh
`expire_time = now + ttl`).
The age check at line 77 is `(now - cache_time).count() > MAX_CACHE_AGE`:
a *raw tick* difference of `system_clock` time points compared against
the millisecond constant.  On this repository's Windows build (it
includes `<ws2tcpip.h>`) a `system_clock` tick is 100 ns, i.e. 10000
ticks per millisecond, so a file is in fact rejected once older than
86400000 / 10000 = 8640 ms — not the intended 24 h (a libstdc++ build
counts nanosecond ticks and rejects after ~86 ms).  The model commits
to the build platform's 100 ns tick: an age of
`now * 1000 - timestamp_ms` milliseconds is `… * 10000` ticks.  Every
theorem below loads at file age 0, where every tick reading agrees.
Malformed records (missing JSON fields) deserialize to a default record
with `is_valid = false` and are skipped by the same filter, so the
parsed-record list covers them. -/
def load (now : Int) (c : DNSCache) (file : CacheFile) : DNSCache × Bool :=
  if file.version ≠ "1.0" then (c, false)
  else if (now * 1000 - file.timestamp_ms) * 10000 > MAX_CACHE_AGE then (c, false)
  else
    (file.records.foldl (fun acc r =>
        if r.is_valid && decide (r.expire_time > now) then
          DNSCache.update now acc r.hostname r.ip_addresses
        else acc) c,
      true)

end DNSCachePersistor

/-- `static_cast<int64_t>` applied to a non-negative C++ `double`:
truncation toward zero, on rationals `num.tdiv den`. -/
def castToInt64 (q : ℚ) : Int := q.num.tdiv (q.den : Int)

/-- The `DNSMetrics` counters and alert thresholds
(`include/DNSMetrics.h`); the Prometheus counters are plain naturals
here, the gauge and the `double` threshold are rationals. -/
structure DNSMetrics where
  total_queries : Nat
  successful_queries : Nat
  failed_queries : Nat
  cache_hits : Nat
  cache_misses : Nat
  cache_hit_rate_gauge : ℚ
  error_rate_threshold : ℚ
  latency_threshold_ms : Int
deriving Repr, DecidableEq

/-- The fields of `DNSMetrics::Stats` the claims are about. -/
structure Stats where
  total_queries : Nat
  successful_queries : Nat
  failed_queries : Nat
  cache_hits : Nat
  cache_misses : Nat
  cache_hit_rate : ℚ
deriving Repr, DecidableEq

namespace DNSMetrics

/-- `DNSMetrics::updateCacheHitRate` (`DNSMetrics.cpp:193-198`). -/
def updateCacheHitRate (m : DNSMetrics) : DNSMetrics :=
  let total : ℚ := (m.cache_hits : ℚ) + (m.cache_misses : ℚ)
  if total > 0 then
    { m with cache_hit_rate_gauge := (m.cache_hits : ℚ) / total }
  else m

/-- `DNSMetrics::recordCacheHit`. -/
def recordCacheHit (m : DNSMetrics) : DNSMetrics :=
  updateCacheHitRate { m with cache_hits := m.cache_hits + 1 }

/-- `DNSMetrics::recordCacheMiss`. -/
def recordCacheMiss (m : DNSMetrics) : DNSMetrics :=
  updateCacheHitRate { m with cache_misses := m.cache_misses + 1 }

/-- `DNSMetrics::getStats` (`DNSMetrics.cpp:148-184`), restricted to the
counter fields.  Note the source line 157:
`stats.cache_hit_rate = total > 0 ? static_cast<int64_t>(stats.cache_hits / total) : 0;`
— the floating-point ratio is truncated to an integer *before* being
stored into the `double` field. -/
def getStats (m : DNSMetrics) : Stats :=
  let total : ℚ := (m.cache_hits : ℚ) + (m.cache_misses : ℚ)
  { total_queries := m.total_queries,
    successful_queries := m.successful_queries,
    failed_queries := m.failed_queries,
    cache_hits := m.cache_hits,
    cache_misses := m.cache_misses,
    cache_hit_rate :=
      if total > 0 then ((castToInt64 ((m.cache_hits : ℚ) / total) : ℤ) : ℚ) else 0 }

/-- `DNSMetrics::setAlertThresholds` (`DNSMetrics.cpp:200-210`).  The
C++ function throws `std::invalid_argument`; each `throw` is modelled by
returning the object state as it stands at the throw point together with
the error message.  Note the source assigns `error_rate_threshold_`
*before* validating the latency threshold. -/
def setAlertThresholds (m : DNSMetrics) (error_rate_threshold : ℚ)
    (latency_threshold_ms : Int) : DNSMetrics × Option String :=
  if error_rate_threshold < 0 ∨ error_rate_threshold > 1 then
    (m, some "Error rate threshold must be between 0 and 1")
  else
    let m1 := { m with error_rate_threshold := error_rate_threshold }
    if latency_threshold_ms ≤ 0 then
      (m1, some "Latency threshold must be positive")
    else
      ({ m1 with latency_threshold_ms := latency_threshold_ms }, none)

end DNSMetrics

/-- `DNSAddressEvent` from `include/DNSEvent.h`. -/
structure DNSAddressEvent where
  hostname : String
  old_addresses : List String
  new_addresses : List String
  timestamp : Int
  source : String
  ttl : Nat
  record_type : String
  is_authoritative : Bool
deriving Repr, DecidableEq

/-- `DNSEventManager` state (`include/DNSEvent.h:59-68`): listeners and
callbacks are keyed by name (delivery to a subscriber is observed as the
pair of its name and the event), and `filters_` maps filter names to
predicates.  The `paused_` flag and the event queue are declared in the
header but never touched by any member function in `DNSEvent.cpp`, so
they carry no behaviour. -/
structure DNSEventManager where
  listeners : List String
  callbacks : List String
  filters : List (String × (DNSAddressEvent → Bool))

namespace DNSEventManager

/-- `DNSEventManager::notifyAddressChanged` (`DNSEvent.cpp:29-51`):
under the mutex, deliver the event to every listener and then to every
callback.  The implementation never consults `filters_` (nor the
declared-but-undefined `shouldProcessEvent`).  The result is the
delivery log: one `(subscriber name, event)` pair per delivery. -/
def notifyAddressChanged (m : DNSEventManager) (e : DNSAddressEvent) :
    List (String × DNSAddressEvent) :=
  (m.listeners.map fun n => (n, e)) ++ (m.callbacks.map fun n => (n, e))

/-- All registered filters accept the event (the delivery condition the
specification describes). -/
def allFiltersPass (m : DNSEventManager) (e : DNSAddressEvent) : Bool :=
  m.filters.all fun f => f.2 e

end DNSEventManager

/-- `RetryConfig` from `include/DNSConfig.h`. -/
structure RetryConfig where
  max_attempts : Nat
  base_delay_ms : Nat
  max_delay_ms : Nat
deriving Repr, DecidableEq

namespace DNSResolver

/-- The success path of `DNSResolver::process_result`
(`DNSResolver.cpp:291-334`): fetch the previously cached addresses
(empty when the cache misses — the C++ out-parameter is left untouched),
and on a successful status with a non-empty materialized address list
update the cache and emit an address-change event iff the old and new
address *vectors* compare unequal (`operator!=` on
`std::vector<std::string>`, i.e. ordered sequence inequality).
Returns the post-state of the cache and whether an event was emitted. -/
def process_result (c : DNSCache) (now : Int) (hostname : String)
    (success : Bool) (ips : List String) : DNSCache × Bool :=
  let r := DNSCache.get now c hostname
  let old_addresses := r.1.getD []
  if success && !ips.isEmpty then
    (DNSCache.update now r.2 hostname ips, old_addresses != ips)
  else
    (r.2, false)

/-- The retry branch of `DNSResolver::process_result`
(`DNSResolver.cpp:335-356`).  The attempt counter is
`static uint32_t retry_count = 0;` — a single function-local static
shared by *every* query context and hostname.  For one retryable
failure callback: if the shared counter is below `max_attempts` it is
incremented and the query is re-issued (`true`); otherwise the counter
is reset to zero and the result is finalized (`false`).  Returns the
new shared counter and whether a retry was issued. -/
def process_failure (cfg : RetryConfig) (retry_count : Nat) : Nat × Bool :=
  if retry_count < cfg.max_attempts then (retry_count + 1, true)
  else (0, false)

/-- The exponential backoff of the retry branch:
`min(base_delay_ms * (1 << (retry_count - 1)), max_delay_ms)` computed
after the increment, so `retry_count ≥ 1`. -/
def backoff_delay (cfg : RetryConfig) (retry_count : Nat) : Nat :=
  min (cfg.base_delay_ms * 2 ^ (retry_count - 1)) cfg.max_delay_ms

/-- One line of the retry log: which hostname's failure callback ran,
the value of the shared static counter when it ran, and whether the
query was re-issued. -/
structure RetryLogEntry where
  hostname : String
  counter_before : Nat
  retried : Bool
deriving Repr, DecidableEq

/-- Replay a sequence of retryable failure callbacks (identified by the
hostname of the query context each belongs to) against the shared
static counter, which starts at 0 when the process starts.  Returns the
final counter and the log. -/
def replayFailures (cfg : RetryConfig) (hostnames : List String) :
    Nat × List RetryLogEntry :=
  hostnames.foldl
    (fun acc h =>
      let step := process_failure cfg acc.1
      (step.1, acc.2 ++ [{ hostname := h, counter_before := acc.1, retried := step.2 }]))
    (0, [])

end DNSResolver

/-- The fields of `DNSServerConfig` (`include/DNSConfig.h`) that
`DNSResolver::loadConfig` reads (port, weight and timeout are consumed
only by the validator, which the model treats as an environment
outcome, see `LoadOutcome`). -/
structure DNSServerConfig where
  address : String
  enabled : Bool
deriving Repr, DecidableEq

/-- `CacheConfig` fields read by `DNSResolver::loadConfig`. -/
structure CacheConfig where
  enabled : Bool
  ttl : Int
  persistent : Bool
deriving Repr, DecidableEq

/-- `MetricsConfig` fields read by `DNSResolver::loadConfig`. -/
structure MetricsConfig where
  enabled : Bool
deriving Repr, DecidableEq

/-- A configuration snapshot (`DNSResolverConfig`). -/
structure DNSResolverConfig where
  servers : List DNSServerConfig
  cache : CacheConfig
  metrics : MetricsConfig
deriving Repr, DecidableEq

/-- The c-ares channel as observable resolver state: `gen` is bumped
each time `ares_init_options` installs a fresh channel into `channel_`
(distinguishing the new channel from the previous one), and `servers`
is the list installed by `ares_set_servers_ports_csv`. -/
structure Channel where
  gen : Nat
  servers : List String
deriving Repr, DecidableEq

/-- The observable state of `DNSResolver` that configuration loading
touches: the channel, the cache, the active configuration snapshot
(`config_`) and the `initialized_` flag (field `inited` here). -/
structure ResolverState where
  channel : Channel
  cache : DNSCache
  config : Option DNSResolverConfig
  inited : Bool
deriving Repr, DecidableEq

/-- Success/failure of the two external c-ares calls inside
`DNSResolver::init` — environment inputs to the model. -/
structure AresOutcome where
  init_ok : Bool
  set_servers_ok : Bool
deriving Repr, DecidableEq

/-- Environment outcomes for one `loadConfig` run: whether
`DNSConfigValidator::validate` accepts the snapshot (it also probes the
filesystem, so it is an oracle here) and the c-ares outcomes. -/
structure LoadOutcome where
  validate_ok : Bool
  ares : AresOutcome
deriving Repr, DecidableEq

namespace DNSResolver

/-- `DNSResolver::init` (`DNSResolver.cpp:34-76`).  `ares_init_options`
failure leaves everything untouched; once it succeeds `channel_` holds a
fresh channel (no servers installed yet); a failing
`ares_set_servers_ports_csv` then returns `false` with the fresh channel
left in place; on full success the server list is installed, `cache_` is
replaced by a brand-new empty cache with the given ttl, and
`initialized_` is set.  (`dns_server_list_` is bookkeeping not read by
any claim and is omitted.) -/
def init (st : ResolverState) (o : AresOutcome) (dns_servers : List String)
    (cache_ttl : Int) : ResolverState × Bool :=
  if !o.init_ok then (st, false)
  else
    let st1 := { st with channel := { gen := st.channel.gen + 1, servers := [] } }
    if !dns_servers.isEmpty && !o.set_servers_ok then (st1, false)
    else
      let st2 :=
        if dns_servers.isEmpty then st1
        else { st1 with channel := { st1.channel with servers := dns_servers } }
      ({ st2 with cache := DNSCache.mkCache cache_ttl, inited := true }, true)

/-- `DNSResolver::loadConfig(const DNSResolverConfig&)`
(`DNSResolver.cpp:78-111`): validate (a `ConfigValidationError` is
caught and returns `false` with nothing touched), re-`init` with the
enabled servers, optionally start the metrics exporter
(`startPrometheusExporter` catches its own exceptions and mutates no
state modelled here), optionally reload the persisted cache (the
`load_cache` return value is ignored by the source), and only then
publish the new snapshot into `config_`. -/
def loadConfig (st : ResolverState) (config : DNSResolverConfig) (o : LoadOutcome)
    (now : Int) (diskCache : CacheFile) : ResolverState × Bool :=
  if !o.validate_ok then (st, false)
  else
    let active_servers := (config.servers.filter (·.enabled)).map (·.address)
    let r := init st o.ares active_servers config.cache.ttl
    if !r.2 then (r.1, false)
    else
      let st2 :=
        if config.cache.enabled && config.cache.persistent then
          { r.1 with cache := (DNSCachePersistor.load now r.1.cache diskCache).1 }
        else r.1
      ({ st2 with config := some config }, true)

end DNSResolver

/-! ## Helper lemmas about the cache map -/

namespace DNSCache

theorem lookupEntry_setEntry_self (h : String) (r : DNSRecord) :
    ∀ l, lookupEntry h (setEntry h r l) = some r
  | [] => by simp [setEntry, lookupEntry]
  | p :: rest => by
    by_cases hp : p.1 == h
    · simp [setEntry, lookupEntry, hp]
    · simp only [setEntry, lookupEntry, hp, if_false, Bool.false_eq_true, if_neg]
      exact lookupEntry_setEntry_self h r rest

theorem length_setEntry_le (h : String) (r : DNSRecord) :
    ∀ l, (setEntry h r l).length ≤ l.length + 1
  | [] => by simp [setEntry]
  | p :: rest => by
    by_cases hp : p.1 == h
    · simp [setEntry, hp]
    · simpa [setEntry, hp] using length_setEntry_le h r rest

theorem length_setEntry_of_lookup (h : String) (r : DNSRecord) :
    ∀ l, lookupEntry h l ≠ none → (setEntry h r l).length = l.length
  | [], hl => by simp [lookupEntry] at hl
  | p :: rest, hl => by
    by_cases hp : p.1 == h
    · simp [setEntry, hp]
    · simp only [lookupEntry, hp, Bool.false_eq_true, if_neg, if_false] at hl
      simpa [setEntry, hp] using length_setEntry_of_lookup h r rest hl

theorem length_eraseFirstMin :
    ∀ l : List (String × DNSRecord), l ≠ [] → (eraseFirstMin l).length + 1 = l.length
  | [], hl => absurd rfl hl
  | p :: rest, _ => by
    by_cases hc : rest.all (fun q => decide (p.2.expire_time ≤ q.2.expire_time))
    · simp [eraseFirstMin, hc]
    · have hrest : rest ≠ [] := by
        intro hnil
        subst hnil
        simp at hc
      simp only [eraseFirstMin, hc, Bool.false_eq_true, if_neg, if_false, List.length_cons]
      rw [← length_eraseFirstMin rest hrest]

theorem length_cleanup_le (now : Int) (c : DNSCache) :
    (cleanup now c).entries.length ≤ c.entries.length := by
  simp only [cleanup]
  split
  · exact le_trans (List.length_filter_le _ _) (List.length_filter_le _ _)
  · exact List.length_filter_le _ _

theorem cleanup_ttl (now : Int) (c : DNSCache) : (cleanup now c).ttl = c.ttl := rfl

theorem cleanup_max_size (now : Int) (c : DNSCache) :
    (cleanup now c).max_size = c.max_size := rfl

theorem update_ttl (now : Int) (c : DNSCache) (h : String) (A : List String) :
    (update now c h A).ttl = c.ttl := rfl

theorem update_max_size (now : Int) (c : DNSCache) (h : String) (A : List String) :
    (update now c h A).max_size = c.max_size := rfl

/-- After `update`, the hostname maps to exactly the freshly stamped
record. -/
theorem findRecord_update_self (now : Int) (c : DNSCache) (h : String)
    (A : List String) :
    findRecord (update now c h A) h =
      some { ip_addresses := A, expire_time := now + c.ttl, is_valid := true } := by
  simp [findRecord, update, lookupEntry_setEntry_self, cleanup_ttl]

end DNSCache

namespace DNSCache

/-- `get` on a present, valid, unexpired record: returns the addresses,
counts a hit, and applies the soft-refresh marking. -/
theorem get_found_valid (now : Int) (c : DNSCache) (h : String) (r : DNSRecord)
    (hlook : lookupEntry h c.entries = some r) (hval : r.is_valid = true)
    (hexp : now < r.expire_time) :
    get now c h =
      (some r.ip_addresses,
        { c with
          entries := setEntry h
            (if r.expire_time - now < softRefreshThreshold c.ttl then
              { r with is_valid := false }
            else r) c.entries,
          hits := c.hits + 1 }) := by
  have hcond : ¬ (now ≥ r.expire_time ∨ r.is_valid = false) := by
    push_neg
    exact ⟨hexp, by simp [hval]⟩
  simp only [get, hlook, if_neg hcond]

/-- `get` on a present but invalid record: erases it and counts a miss
(whatever the query time). -/
theorem get_found_invalid (now : Int) (c : DNSCache) (h : String) (r : DNSRecord)
    (hlook : lookupEntry h c.entries = some r) (hval : r.is_valid = false) :
    get now c h =
      (none, { c with entries := eraseEntry h c.entries, misses := c.misses + 1 }) := by
  simp only [get, hlook, if_pos (Or.inr hval)]

end DNSCache

/-! ## C2 : soft refresh -/

/-- C2 (amended): after `update(h, A)` at `t0` with ttl `T`, a `get(h)`
at any `t ∈ [t0, t0 + T)` on the still-present record returns `A`.  If
the remaining ttl is strictly below the soft-refresh threshold (i.e.
`t > t0 + 0.8·T`), that call clears the `valid` flag — and any
*subsequent* `get(h)`, at any time, misses (the invalidated record is
erased), rather than returning the cached addresses.  If the remaining
ttl is at or above the threshold (including `t = t0 + 0.8·T` exactly,
since the source compares with strict `<`), the `valid` flag stays
true. -/
theorem soft_refresh_get_behavior (c : DNSCache) (h : String) (A : List String)
    (t0 t t' : Int) (h1 : t0 ≤ t) (h2 : t < t0 + c.ttl) :
    ((DNSCache.get t (DNSCache.update t0 c h A) h).1 = some A) ∧
    (c.ttl - (t - t0) < DNSCache.softRefreshThreshold c.ttl →
      DNSCache.findRecord ((DNSCache.get t (DNSCache.update t0 c h A) h).2) h =
        some { ip_addresses := A, expire_time := t0 + c.ttl, is_valid := false } ∧
      (DNSCache.get t' ((DNSCache.get t (DNSCache.update t0 c h A) h).2) h).1 = none) ∧
    (DNSCache.softRefreshThreshold c.ttl ≤ c.ttl - (t - t0) →
      DNSCache.findRecord ((DNSCache.get t (DNSCache.update t0 c h A) h).2) h =
        some { ip_addresses := A, expire_time := t0 + c.ttl, is_valid := true }) := by
  have hlook : DNSCache.lookupEntry h (DNSCache.update t0 c h A).entries =
      some { ip_addresses := A, expire_time := t0 + c.ttl, is_valid := true } :=
    DNSCache.findRecord_update_self t0 c h A
  have heq := DNSCache.get_found_valid t (DNSCache.update t0 c h A) h
    { ip_addresses := A, expire_time := t0 + c.ttl, is_valid := true } hlook rfl h2
  refine ⟨?_, ?_, ?_⟩
  · rw [heq]
  · intro hsoft
    have hcond : ({ ip_addresses := A, expire_time := t0 + c.ttl, is_valid := true } :
        DNSRecord).expire_time - t <
        DNSCache.softRefreshThreshold (DNSCache.update t0 c h A).ttl := by
      show t0 + c.ttl - t < DNSCache.softRefreshThreshold c.ttl
      simp only [DNSCache.softRefreshThreshold] at hsoft ⊢
      omega
    rw [heq]
    rw [if_pos hcond]
    constructor
    · exact DNSCache.lookupEntry_setEntry_self h _ _
    · rw [DNSCache.get_found_invalid t' _ h
        { ip_addresses := A, expire_time := t0 + c.ttl, is_valid := false }
        (DNSCache.lookupEntry_setEntry_self h _ _) rfl]
  · intro hhard
    have hcond : ¬ (({ ip_addresses := A, expire_time := t0 + c.ttl, is_valid := true } :
        DNSRecord).expire_time - t <
        DNSCache.softRefreshThreshold (DNSCache.update t0 c h A).ttl) := by
      show ¬ (t0 + c.ttl - t < DNSCache.softRefreshThreshold c.ttl)
      simp only [DNSCache.softRefreshThreshold] at hhard ⊢
      omega
    rw [heq]
    rw [if_neg hcond]
    exact DNSCache.lookupEntry_setEntry_self h _ _

/-- C2 (counterexample to the claim as stated): ttl 300, update at
`t0 = 0`.  Both `t = 250` and `t = 260` lie in `[t0 + 0.8·T, t0 + T) =
[240, 300)`, yet only the first `get` returns the cached addresses; the
second returns none (the soft-refresh marking of the first call makes
the next `get` erase the record and report a miss), contradicting
"every call to get(h) at a time t with t0 + 0.8·T ≤ t < t0 + T returns
exactly A". -/
theorem soft_refresh_second_get_counterexample :
    ((0 : Int) + 240 ≤ 250 ∧ (250 : Int) < 0 + 300) ∧
    ((0 : Int) + 240 ≤ 260 ∧ (260 : Int) < 0 + 300) ∧
    (DNSCache.get 250
        (DNSCache.update 0 (DNSCache.mkCache 300) "example.test" ["1.2.3.4"])
        "example.test").1 = some ["1.2.3.4"] ∧
    (DNSCache.get 260
        ((DNSCache.get 250
          (DNSCache.update 0 (DNSCache.mkCache 300) "example.test" ["1.2.3.4"])
          "example.test").2)
        "example.test").1 = none := by
  refine ⟨⟨by decide, by decide⟩, ⟨by decide, by decide⟩, ?_, ?_⟩
  · rfl
  · rfl

/-- Witness for `soft_refresh_get_behavior` at ttl 300, `t0 = 0`,
`t = 250`, `t' = 260`. -/
theorem soft_refresh_get_behavior_witness :
    (0 : Int) ≤ 250 ∧ (250 : Int) < 0 + (DNSCache.mkCache 300).ttl ∧
    (DNSCache.get 250
        (DNSCache.update 0 (DNSCache.mkCache 300) "example.test" ["1.2.3.4"])
        "example.test").1 = some ["1.2.3.4"] :=
  ⟨by decide, by decide,
    (soft_refresh_get_behavior (DNSCache.mkCache 300) "example.test" ["1.2.3.4"]
      0 250 260 (by decide) (by decide)).1⟩

/-! ## C1 : address-change events -/

/-- C1 (amended): on a completed query, `process_result` emits an
address-change event iff the query succeeded, the newly resolved
address list is non-empty, and the previously cached address *sequence*
(empty on a cache miss) differs from the new one as an ordered list
(`std::vector` inequality) — not as a multiset. -/
theorem process_result_event_iff (c : DNSCache) (now : Int) (h : String)
    (success : Bool) (ips : List String) :
    (DNSResolver.process_result c now h success ips).2 = true ↔
      success = true ∧ ips ≠ [] ∧ ((DNSCache.get now c h).1.getD []) ≠ ips := by
  unfold DNSResolver.process_result
  cases success with
  | false => simp
  | true =>
    by_cases hips : ips.isEmpty
    · rw [List.isEmpty_iff] at hips
      simp [hips]
    · have hne : ips ≠ [] := by
        intro hnil
        rw [hnil] at hips
        exact hips rfl
      simp [hips, hne, bne_iff_ne]

/-- C1 (counterexample to the claim as stated): the cache holds
`["1.1.1.1", "2.2.2.2"]` for the hostname; the query resolves the same
addresses in reversed order.  The multisets are equal, so the claim
demands that no event be emitted — but `process_result` compares the
vectors and emits one. -/
theorem process_result_multiset_counterexample :
    ((DNSCache.get 0
        (DNSCache.update 0 (DNSCache.mkCache 300) "example.test" ["1.1.1.1", "2.2.2.2"])
        "example.test").1.getD []) = ["1.1.1.1", "2.2.2.2"] ∧
    (["1.1.1.1", "2.2.2.2"] : Multiset String) = (["2.2.2.2", "1.1.1.1"] : Multiset String) ∧
    (["2.2.2.2", "1.1.1.1"] : List String) ≠ [] ∧
    (DNSResolver.process_result
        (DNSCache.update 0 (DNSCache.mkCache 300) "example.test" ["1.1.1.1", "2.2.2.2"])
        0 "example.test" true ["2.2.2.2", "1.1.1.1"]).2 = true := by
  refine ⟨rfl, by decide, by decide, rfl⟩

/-! ## C10 : clear resets counters, remove does not -/

/-- C10: `clear()` empties the cache *and* zeroes the hit/miss
counters, so `size() = 0` and `hit_rate() = 0` immediately afterwards;
`remove(host)` only drops the entry and leaves both counters
untouched. -/
theorem clear_resets_counters_remove_does_not (c : DNSCache) (host : String) :
    DNSCache.size (DNSCache.clear c) = 0 ∧
    (DNSCache.clear c).hits = 0 ∧
    (DNSCache.clear c).misses = 0 ∧
    DNSCache.hit_rate (DNSCache.clear c) = 0 ∧
    (DNSCache.remove c host).hits = c.hits ∧
    (DNSCache.remove c host).misses = c.misses := by
  refine ⟨rfl, rfl, rfl, ?_, rfl, rfl⟩
  simp [DNSCache.clear, DNSCache.hit_rate]

/-! ## C4 : hit-rate computation -/

/-- C4 (the `DNSCache::hit_rate` half of the claim holds): the reader
returns `hits / (hits + misses)` and `0` when both counters are
zero. -/
theorem cache_hit_rate_law (c : DNSCache) :
    (c.hits + c.misses = 0 → DNSCache.hit_rate c = 0) ∧
    (c.hits + c.misses ≠ 0 →
      DNSCache.hit_rate c = (c.hits : ℚ) / ((c.hits : ℚ) + (c.misses : ℚ))) := by
  constructor
  · intro h0
    simp [DNSCache.hit_rate, h0]
  · intro h0
    simp [DNSCache.hit_rate, h0]

/-- Witness for `cache_hit_rate_law` at 1 hit / 1 miss. -/
theorem cache_hit_rate_law_witness :
    ((1 : Nat) + 1 ≠ 0) ∧
    DNSCache.hit_rate
        { entries := [], ttl := 300, max_size := 10000, hits := 1, misses := 1 } =
      ((1 : Nat) : ℚ) / (((1 : Nat) : ℚ) + ((1 : Nat) : ℚ)) :=
  ⟨by decide,
    (cache_hit_rate_law
      { entries := [], ttl := 300, max_size := 10000, hits := 1, misses := 1 }).2
      (by decide)⟩

/-- C4 (refuting the `getStats` half): after 1 cache hit and 1 cache
miss, `DNSCache::hit_rate` and the hit-rate gauge both report `1/2`,
but the `cache_hit_rate` field of the stats snapshot is `0` — the
source truncates the ratio to an integer (`static_cast<int64_t>`)
before storing it in the `double` field (`DNSMetrics.cpp:157`). -/
theorem getStats_hit_rate_truncated :
    DNSCache.hit_rate
        { entries := [], ttl := 300, max_size := 10000, hits := 1, misses := 1 } = 1 / 2 ∧
    (DNSMetrics.updateCacheHitRate
        { total_queries := 2, successful_queries := 1, failed_queries := 1,
          cache_hits := 1, cache_misses := 1, cache_hit_rate_gauge := 0,
          error_rate_threshold := 0, latency_threshold_ms := 1000 }).cache_hit_rate_gauge
      = 1 / 2 ∧
    (DNSMetrics.getStats
        { total_queries := 2, successful_queries := 1, failed_queries := 1,
          cache_hits := 1, cache_misses := 1, cache_hit_rate_gauge := 1 / 2,
          error_rate_threshold := 0, latency_threshold_ms := 1000 }).cache_hit_rate
      = 0 := by
  refine ⟨?_, ?_, ?_⟩
  · norm_num [DNSCache.hit_rate]
  · norm_num [DNSMetrics.updateCacheHitRate]
  · norm_num [DNSMetrics.getStats, castToInt64]
    decide

/-! ## C9 : setAlertThresholds partial mutation on error -/

/-- C9: with a well-formed error-rate threshold but a non-positive
latency threshold, `setAlertThresholds` raises the invalid-argument
error *after* having already stored the new error-rate threshold; the
stored latency threshold keeps its previous value, so the metrics state
is not left unchanged whenever the error-rate threshold actually
differs from the old one. -/
theorem setAlertThresholds_partial_update (m : DNSMetrics) (er : ℚ) (lat : Int)
    (h0 : 0 ≤ er) (h1 : er ≤ 1) (h2 : lat ≤ 0) :
    (DNSMetrics.setAlertThresholds m er lat).2 =
      some "Latency threshold must be positive" ∧
    (DNSMetrics.setAlertThresholds m er lat).1.error_rate_threshold = er ∧
    (DNSMetrics.setAlertThresholds m er lat).1.latency_threshold_ms =
      m.latency_threshold_ms ∧
    (er ≠ m.error_rate_threshold →
      (DNSMetrics.setAlertThresholds m er lat).1 ≠ m) := by
  have hrange : ¬ (er < 0 ∨ er > 1) := by
    push_neg
    exact ⟨h0, h1⟩
  have heq : DNSMetrics.setAlertThresholds m er lat =
      ({ m with error_rate_threshold := er },
        some "Latency threshold must be positive") := by
    unfold DNSMetrics.setAlertThresholds
    rw [if_neg hrange, if_pos h2]
  refine ⟨by rw [heq], by rw [heq], by rw [heq], ?_⟩
  intro hne hcontra
  rw [heq] at hcontra
  exact hne (congrArg DNSMetrics.error_rate_threshold hcontra)

/-- Witness for `setAlertThresholds_partial_update`: thresholds
`(1, 0)` on a state whose previous thresholds were `(0, 1000)`. -/
theorem setAlertThresholds_partial_update_witness :
    ((0 : ℚ) ≤ 1 ∧ (1 : ℚ) ≤ 1 ∧ (0 : Int) ≤ 0) ∧
    (DNSMetrics.setAlertThresholds
        { total_queries := 0, successful_queries := 0, failed_queries := 0,
          cache_hits := 0, cache_misses := 0, cache_hit_rate_gauge := 0,
          error_rate_threshold := 0, latency_threshold_ms := 1000 } 1 0).2 =
      some "Latency threshold must be positive" ∧
    (DNSMetrics.setAlertThresholds
        { total_queries := 0, successful_queries := 0, failed_queries := 0,
          cache_hits := 0, cache_misses := 0, cache_hit_rate_gauge := 0,
          error_rate_threshold := 0, latency_threshold_ms := 1000 } 1 0).1.error_rate_threshold = 1 ∧
    (DNSMetrics.setAlertThresholds
        { total_queries := 0, successful_queries := 0, failed_queries := 0,
          cache_hits := 0, cache_misses := 0, cache_hit_rate_gauge := 0,
          error_rate_threshold := 0, latency_threshold_ms := 1000 } 1 0).1.latency_threshold_ms = 1000 :=
  ⟨⟨by decide, by decide, by decide⟩,
    (setAlertThresholds_partial_update _ 1 0 (by decide) (by decide) (by decide)).1,
    (setAlertThresholds_partial_update _ 1 0 (by decide) (by decide) (by decide)).2.1,
    (setAlertThresholds_partial_update _ 1 0 (by decide) (by decide) (by decide)).2.2.1⟩

/-! ## C3 : the retry counter is shared across query contexts -/

/-- C3 (evaluating the source's behaviour at the failing schedule):
with `max_attempts = 2`, replay three retryable failure callbacks —
for a query on `alpha.test`, then a *fresh* query on `beta.test`, then
`alpha.test`'s retry failing again.  Because the counter is one shared
`static uint32_t`, `beta.test`'s very first failure already sees
counter 1 (a fresh query context does not start at 0), and
`alpha.test` is finalized (`retried = false`) after only one retry of
its own even though `max_attempts = 2`. -/
theorem retry_counter_shared_across_contexts :
    (DNSResolver.replayFailures
        { max_attempts := 2, base_delay_ms := 50, max_delay_ms := 1000 }
        ["alpha.test", "beta.test", "alpha.test"]).2 =
      [{ hostname := "alpha.test", counter_before := 0, retried := true },
       { hostname := "beta.test", counter_before := 1, retried := true },
       { hostname := "alpha.test", counter_before := 2, retried := false }] := by
  rfl

/-! ## C8 : event filtering -/

/-- C8 (amended): `notifyAddressChanged` delivers every event to every
registered listener and every registered callback *unconditionally* —
the registered filter predicates are never consulted (changing the
filter set does not change the delivery log), and nothing but the
registered subscribers receives the event. -/
theorem notify_delivers_unconditionally (m : DNSEventManager) (e : DNSAddressEvent)
    (fs : List (String × (DNSAddressEvent → Bool))) :
    (DNSEventManager.notifyAddressChanged
        { listeners := m.listeners, callbacks := m.callbacks, filters := fs } e =
      DNSEventManager.notifyAddressChanged m e) ∧
    (∀ n, n ∈ m.listeners ++ m.callbacks →
      (n, e) ∈ DNSEventManager.notifyAddressChanged m e) ∧
    (∀ p, p ∈ DNSEventManager.notifyAddressChanged m e →
      p.2 = e ∧ p.1 ∈ m.listeners ++ m.callbacks) := by
  refine ⟨rfl, ?_, ?_⟩
  · intro n hn
    rw [List.mem_append] at hn
    rcases hn with hl | hc
    · exact List.mem_append_left _ (List.mem_map_of_mem _ hl)
    · exact List.mem_append_right _ (List.mem_map_of_mem _ hc)
  · intro p hp
    rw [DNSEventManager.notifyAddressChanged, List.mem_append] at hp
    rcases hp with hl | hc
    · rcases List.mem_map.mp hl with ⟨n, hn, hpn⟩
      refine ⟨by rw [← hpn], ?_⟩
      rw [← hpn]
      exact List.mem_append_left _ hn
    · rcases List.mem_map.mp hc with ⟨n, hn, hpn⟩
      refine ⟨by rw [← hpn], ?_⟩
      rw [← hpn]
      exact List.mem_append_right _ hn

/-- The concrete event used by the C8 theorems. -/
def sampleEvent : DNSAddressEvent :=
  { hostname := "example.test", old_addresses := ["1.1.1.1"],
    new_addresses := ["2.2.2.2"], timestamp := 0, source := "query",
    ttl := 300, record_type := "A", is_authoritative := false }

/-- C8 (counterexample to the claim as stated): one registered listener
and one callback, and a registered filter that rejects every event.
The claim demands that no listener or callback receive the event; the
source delivers it to both. -/
theorem notify_ignores_filters_counterexample :
    DNSEventManager.allFiltersPass
        { listeners := ["listener"], callbacks := ["callback"],
          filters := [("deny-all", fun _ => false)] } sampleEvent = false ∧
    DNSEventManager.notifyAddressChanged
        { listeners := ["listener"], callbacks := ["callback"],
          filters := [("deny-all", fun _ => false)] } sampleEvent =
      [("listener", sampleEvent), ("callback", sampleEvent)] := by
  exact ⟨rfl, rfl⟩

/-- Witness for `notify_delivers_unconditionally`: a deny-all filter
set, with the listener named `"listener"` still receiving the event. -/
theorem notify_delivers_unconditionally_witness :
    (DNSEventManager.notifyAddressChanged
        { listeners := ["listener"], callbacks := ["callback"],
          filters := [("deny-all", fun _ => false)] } sampleEvent =
      DNSEventManager.notifyAddressChanged
        { listeners := ["listener"], callbacks := ["callback"], filters := [] }
        sampleEvent) ∧
    ("listener", sampleEvent) ∈
      DNSEventManager.notifyAddressChanged
        { listeners := ["listener"], callbacks := ["callback"], filters := [] }
        sampleEvent :=
  ⟨(notify_delivers_unconditionally
      { listeners := ["listener"], callbacks := ["callback"], filters := [] }
      sampleEvent [("deny-all", fun _ => false)]).1,
    (notify_delivers_unconditionally
      { listeners := ["listener"], callbacks := ["callback"], filters := [] }
      sampleEvent [("deny-all", fun _ => false)]).2.1 "listener" (by simp)⟩

/-! ## C6 : atomicity of configuration apply -/

namespace DNSResolver

/-- `init` never touches the active configuration snapshot. -/
theorem init_config (st : ResolverState) (o : AresOutcome)
    (dns_servers : List String) (cache_ttl : Int) :
    (init st o dns_servers cache_ttl).1.config = st.config := by
  by_cases h1 : o.init_ok
  · by_cases h2 : dns_servers.isEmpty
    · simp [init, h1, h2]
    · by_cases h3 : o.set_servers_ok
      · simp [init, h1, h2, h3]
      · simp [init, h1, h2, h3]
  · simp [init, h1]

end DNSResolver

/-- C6 (amended): when `loadConfig` returns failure the previously
active configuration snapshot (`config_`) is always left in place, and
a *validation* failure leaves the whole resolver state untouched.
(Failures after successful validation are not atomic — see the
counterexample — only the snapshot itself is protected.) -/
theorem loadConfig_failure_preserves_snapshot (st : ResolverState)
    (config : DNSResolverConfig) (o : LoadOutcome) (now : Int)
    (diskCache : CacheFile)
    (hfail : (DNSResolver.loadConfig st config o now diskCache).2 = false) :
    (DNSResolver.loadConfig st config o now diskCache).1.config = st.config ∧
    (o.validate_ok = false →
      DNSResolver.loadConfig st config o now diskCache = (st, false)) := by
  constructor
  · by_cases hv : o.validate_ok
    · by_cases hr : (DNSResolver.init st o.ares
          ((config.servers.filter (·.enabled)).map (·.address)) config.cache.ttl).2
      · exfalso
        unfold DNSResolver.loadConfig at hfail
        simp [hv, hr] at hfail
      · unfold DNSResolver.loadConfig
        simp only [Bool.not_eq_true] at hr
        simp [hv, hr, DNSResolver.init_config]
    · unfold DNSResolver.loadConfig
      simp only [Bool.not_eq_true] at hv
      simp [hv]
  · intro hv'
    unfold DNSResolver.loadConfig
    simp [hv']

/-- The pre-state used by the C6 theorems: an established channel
(generation 5, one server installed) and a warm cache. -/
def preState : ResolverState :=
  { channel := { gen := 5, servers := ["9.9.9.9"] },
    cache := DNSCache.update 0 (DNSCache.mkCache 300) "cached.test" ["10.0.0.1"],
    config := none, inited := true }

/-- The snapshot submitted in the C6 theorems. -/
def submittedConfig : DNSResolverConfig :=
  { servers := [{ address := "1.1.1.1", enabled := true }],
    cache := { enabled := true, ttl := 300, persistent := false },
    metrics := { enabled := false } }

/-- The persisted-cache file on disk in the C6 theorems. -/
def emptyDiskFile : CacheFile := { version := "1.0", timestamp_ms := 0, records := [] }

/-- C6 (counterexample to the claim as stated): a snapshot that passes
validation, after which `ares_init_options` succeeds but
`ares_set_servers_ports_csv` fails.  `loadConfig` returns failure, yet
the resolver is left holding the freshly created channel (generation 6,
no servers) instead of the previous one — the rejected snapshot's
application is partial, not atomic. -/
theorem loadConfig_not_atomic_counterexample :
    (DNSResolver.loadConfig preState submittedConfig
        { validate_ok := true, ares := { init_ok := true, set_servers_ok := false } }
        0 emptyDiskFile).2 = false ∧
    (DNSResolver.loadConfig preState submittedConfig
        { validate_ok := true, ares := { init_ok := true, set_servers_ok := false } }
        0 emptyDiskFile).1.channel = { gen := 6, servers := [] } ∧
    (DNSResolver.loadConfig preState submittedConfig
        { validate_ok := true, ares := { init_ok := true, set_servers_ok := false } }
        0 emptyDiskFile).1 ≠ preState := by
  refine ⟨rfl, rfl, ?_⟩
  intro hcontra
  exact absurd (congrArg (fun s => s.channel) hcontra) (by decide)

/-- Witness for `loadConfig_failure_preserves_snapshot`: a snapshot
rejected by validation leaves the whole state unchanged. -/
theorem loadConfig_failure_preserves_snapshot_witness :
    ((DNSResolver.loadConfig preState submittedConfig
        { validate_ok := false, ares := { init_ok := true, set_servers_ok := true } }
        0 emptyDiskFile).2 = false) ∧
    (DNSResolver.loadConfig preState submittedConfig
        { validate_ok := false, ares := { init_ok := true, set_servers_ok := true } }
        0 emptyDiskFile).1.config = preState.config ∧
    DNSResolver.loadConfig preState submittedConfig
        { validate_ok := false, ares := { init_ok := true, set_servers_ok := true } }
        0 emptyDiskFile = (preState, false) :=
  ⟨rfl,
    (loadConfig_failure_preserves_snapshot preState submittedConfig
      { validate_ok := false, ares := { init_ok := true, set_servers_ok := true } }
      0 emptyDiskFile rfl).1,
    (loadConfig_failure_preserves_snapshot preState submittedConfig
      { validate_ok := false, ares := { init_ok := true, set_servers_ok := true } }
      0 emptyDiskFile rfl).2 rfl⟩

/-! ## C5 : cache persistence round-trip -/

/-- C5 (amended): for a record that is valid at save time and still
unexpired at load time, saving and reloading preserves the hostname and
the exact address sequence — but the reloaded record's `expire_time` is
`load_time + cache_ttl` (stamped afresh by `DNSCache::update`, which
`DNSCachePersistor::load` re-inserts through), not the saved
`expire_time`. -/
theorem persist_round_trip_amended (h : String) (A : List String)
    (e now tl : Int) (hits misses : Nat) (he : e > now) :
    (DNSCachePersistor.save
        { entries := [(h, { ip_addresses := A, expire_time := e, is_valid := true })],
          ttl := tl, max_size := 10000, hits := hits, misses := misses } now).records =
      [{ hostname := h, ip_addresses := A, expire_time := e, is_valid := true }] ∧
    (DNSCachePersistor.load now (DNSCache.mkCache tl)
        (DNSCachePersistor.save
          { entries := [(h, { ip_addresses := A, expire_time := e, is_valid := true })],
            ttl := tl, max_size := 10000, hits := hits, misses := misses } now)).2 = true ∧
    DNSCache.findRecord
        (DNSCachePersistor.load now (DNSCache.mkCache tl)
          (DNSCachePersistor.save
            { entries := [(h, { ip_addresses := A, expire_time := e, is_valid := true })],
              ttl := tl, max_size := 10000, hits := hits, misses := misses } now)).1 h =
      some { ip_addresses := A, expire_time := now + tl, is_valid := true } := by
  have hs : DNSCachePersistor.save
      { entries := [(h, { ip_addresses := A, expire_time := e, is_valid := true })],
        ttl := tl, max_size := 10000, hits := hits, misses := misses } now =
      { version := "1.0", timestamp_ms := now * 1000,
        records := [{ hostname := h, ip_addresses := A, expire_time := e,
                      is_valid := true }] } := by
    simp [DNSCachePersistor.save, DNSCachePersistor.serializeRecord]
  have hage : ¬ ((now * 1000 - now * 1000) * 10000 > DNSCachePersistor.MAX_CACHE_AGE) := by
    simp only [DNSCachePersistor.MAX_CACHE_AGE]
    omega
  have hload : DNSCachePersistor.load now (DNSCache.mkCache tl)
      { version := "1.0", timestamp_ms := now * 1000,
        records := [{ hostname := h, ip_addresses := A, expire_time := e,
                      is_valid := true }] } =
      (DNSCache.update now (DNSCache.mkCache tl) h A, true) := by
    unfold DNSCachePersistor.load
    rw [if_neg (by simp), if_neg hage]
    simp [he]
  rw [hs]
  refine ⟨rfl, ?_, ?_⟩
  · rw [hload]
  · rw [hload]
    exact DNSCache.findRecord_update_self now (DNSCache.mkCache tl) h A

/-- Witness for `persist_round_trip_amended`: save at `now = 10` a
record expiring at 300 and reload immediately. -/
theorem persist_round_trip_amended_witness :
    ((300 : Int) > 10) ∧
    DNSCache.findRecord
        (DNSCachePersistor.load 10 (DNSCache.mkCache 300)
          (DNSCachePersistor.save
            { entries := [("persist.test",
                { ip_addresses := ["10.0.0.1"], expire_time := 300, is_valid := true })],
              ttl := 300, max_size := 10000, hits := 0, misses := 0 } 10)).1 "persist.test" =
      some { ip_addresses := ["10.0.0.1"], expire_time := 310, is_valid := true } :=
  ⟨by decide,
    (persist_round_trip_amended "persist.test" ["10.0.0.1"] 300 10 300 0 0
      (by decide)).2.2⟩

/-- C5 (counterexample to the claim as stated): a record created at
time 0 with ttl 300 (so `expire_time = 300`), saved at time 250 — when
it is still valid and unexpired (`250 < 300`) — and reloaded at the
*same* time 250 (file age 0, so the source's raw-tick age gate passes
under every platform reading) comes back with `expire_time = 550 =
250 + ttl`: the expiry timestamp differs by 250 s, far beyond the
claimed 1 s precision. -/
theorem persist_expire_not_preserved_counterexample :
    DNSCache.findRecord
        (DNSCache.update 0 (DNSCache.mkCache 300) "persist.test" ["10.0.0.1"])
        "persist.test" =
      some { ip_addresses := ["10.0.0.1"], expire_time := 300, is_valid := true } ∧
    ((250 : Int) < 300) ∧
    (DNSCachePersistor.save
        (DNSCache.update 0 (DNSCache.mkCache 300) "persist.test" ["10.0.0.1"]) 250).records =
      [{ hostname := "persist.test", ip_addresses := ["10.0.0.1"],
         expire_time := 300, is_valid := true }] ∧
    (DNSCachePersistor.load 250 (DNSCache.mkCache 300)
        (DNSCachePersistor.save
          (DNSCache.update 0 (DNSCache.mkCache 300) "persist.test" ["10.0.0.1"]) 250)).2 =
      true ∧
    DNSCache.findRecord
        (DNSCachePersistor.load 250 (DNSCache.mkCache 300)
          (DNSCachePersistor.save
            (DNSCache.update 0 (DNSCache.mkCache 300) "persist.test" ["10.0.0.1"]) 250)).1
        "persist.test" =
      some { ip_addresses := ["10.0.0.1"], expire_time := 550, is_valid := true } ∧
    ¬ ((550 : Int) - 300 ≤ 1) := by
  exact ⟨rfl, by decide, rfl, rfl, rfl, by decide⟩

/-! ## C7 : the cache never exceeds `max_size` -/

namespace DNSCache

/-- `get` on an absent hostname. -/
theorem get_miss (now : Int) (c : DNSCache) (h : String)
    (hl : lookupEntry h c.entries = none) :
    get now c h = (none, { c with misses := c.misses + 1 }) := by
  simp only [get, hl]

/-- `get` on an expired or invalidated record. -/
theorem get_found_stale (now : Int) (c : DNSCache) (h : String) (r : DNSRecord)
    (hl : lookupEntry h c.entries = some r)
    (hc : now ≥ r.expire_time ∨ r.is_valid = false) :
    get now c h =
      (none, { c with entries := eraseEntry h c.entries, misses := c.misses + 1 }) := by
  simp only [get, hl, if_pos hc]

/-- The entries written by `update`, as an unconditional equation. -/
theorem update_entries (now : Int) (c : DNSCache) (h : String) (A : List String) :
    (update now c h A).entries =
      setEntry h { ip_addresses := A, expire_time := now + c.ttl, is_valid := true }
        (if (cleanup now c).entries.length ≥ c.max_size then
          eraseFirstMin (cleanup now c).entries
        else (cleanup now c).entries) := rfl

theorem get_max_size (now : Int) (c : DNSCache) (h : String) :
    (get now c h).2.max_size = c.max_size := by
  cases hl : lookupEntry h c.entries with
  | none => rw [get_miss now c h hl]
  | some r =>
    by_cases hc : now ≥ r.expire_time ∨ r.is_valid = false
    · rw [get_found_stale now c h r hl hc]
    · push_neg at hc
      have hval : r.is_valid = true := by
        cases hv : r.is_valid
        · exact absurd hv hc.2
        · rfl
      rw [get_found_valid now c h r hl hval hc.1]

theorem get_size_le (now : Int) (c : DNSCache) (h : String) :
    (get now c h).2.entries.length ≤ c.entries.length := by
  cases hl : lookupEntry h c.entries with
  | none =>
    rw [get_miss now c h hl]
  | some r =>
    by_cases hc : now ≥ r.expire_time ∨ r.is_valid = false
    · rw [get_found_stale now c h r hl hc]
      exact List.length_filter_le _ _
    · push_neg at hc
      have hval : r.is_valid = true := by
        cases hv : r.is_valid
        · exact absurd hv hc.2
        · rfl
      rw [get_found_valid now c h r hl hval hc.1]
      have hlk : lookupEntry h c.entries ≠ none := by
        rw [hl]
        exact Option.some_ne_none r
      exact le_of_eq (length_setEntry_of_lookup h _ c.entries hlk)

theorem update_size_le (now : Int) (c : DNSCache) (h : String) (A : List String)
    (hmax : 1 ≤ c.max_size) (hle : c.entries.length ≤ c.max_size) :
    (update now c h A).entries.length ≤ c.max_size := by
  have hcl : (cleanup now c).entries.length ≤ c.entries.length := length_cleanup_le now c
  rw [update_entries]
  by_cases hfull : (cleanup now c).entries.length ≥ c.max_size
  · rw [if_pos hfull]
    have hne : (cleanup now c).entries ≠ [] := by
      intro h0
      rw [h0] at hfull
      simp only [List.length_nil] at hfull
      omega
    have hlen := length_eraseFirstMin _ hne
    have hset := length_setEntry_le h
      { ip_addresses := A, expire_time := now + c.ttl, is_valid := true }
      (eraseFirstMin (cleanup now c).entries)
    omega
  · rw [if_neg hfull]
    have hset := length_setEntry_le h
      { ip_addresses := A, expire_time := now + c.ttl, is_valid := true }
      (cleanup now c).entries
    omega

end DNSCache

/-- The per-record re-insertion step of `DNSCachePersistor::load`. -/
def loadStep (now : Int) (acc : DNSCache) (r : SavedRecord) : DNSCache :=
  if r.is_valid && decide (r.expire_time > now) then
    DNSCache.update now acc r.hostname r.ip_addresses
  else acc

theorem foldl_loadStep_bound (now : Int) :
    ∀ (rs : List SavedRecord) (c : DNSCache), 1 ≤ c.max_size →
      c.entries.length ≤ c.max_size →
      (rs.foldl (loadStep now) c).entries.length ≤ c.max_size ∧
      (rs.foldl (loadStep now) c).max_size = c.max_size
  | [], _, _, hle => ⟨hle, rfl⟩
  | r :: rs, c, hmax, hle => by
    simp only [List.foldl]
    by_cases hc : r.is_valid && decide (r.expire_time > now)
    · have hstep : loadStep now c r = DNSCache.update now c r.hostname r.ip_addresses := by
        simp [loadStep, hc]
      rw [hstep]
      have h1 := DNSCache.update_size_le now c r.hostname r.ip_addresses hmax hle
      have h2 := DNSCache.update_max_size now c r.hostname r.ip_addresses
      have ih := foldl_loadStep_bound now rs
        (DNSCache.update now c r.hostname r.ip_addresses)
        (by rw [h2]; exact hmax) (by rw [h2]; exact h1)
      rw [h2] at ih
      exact ih
    · have hstep : loadStep now c r = c := by
        simp only [loadStep, if_neg hc]
      rw [hstep]
      exact foldl_loadStep_bound now rs c hmax hle

theorem load_bound (now : Int) (c : DNSCache) (file : CacheFile)
    (hmax : 1 ≤ c.max_size) (hle : c.entries.length ≤ c.max_size) :
    (DNSCachePersistor.load now c file).1.entries.length ≤ c.max_size ∧
    (DNSCachePersistor.load now c file).1.max_size = c.max_size := by
  unfold DNSCachePersistor.load
  by_cases hv : file.version ≠ "1.0"
  · rw [if_pos hv]
    exact ⟨hle, rfl⟩
  · rw [if_neg hv]
    by_cases hage : (now * 1000 - file.timestamp_ms) * 10000 > DNSCachePersistor.MAX_CACHE_AGE
    · rw [if_pos hage]
      exact ⟨hle, rfl⟩
    · rw [if_neg hage]
      exact foldl_loadStep_bound now file.records c hmax hle

/-- One observable cache operation, as dispatched by the resolver: the
four direct `DNSCache` mutators plus a persistence reload. -/
inductive CacheOp where
  | update (now : Int) (hostname : String) (ips : List String)
  | get (now : Int) (hostname : String)
  | remove (hostname : String)
  | clear
  | load (now : Int) (file : CacheFile)

/-- Apply one operation to the cache (results of `get`/`load` are
discarded, only the post-state is kept). -/
def applyOp (c : DNSCache) : CacheOp → DNSCache
  | .update now h ips => DNSCache.update now c h ips
  | .get now h => (DNSCache.get now c h).2
  | .remove h => DNSCache.remove c h
  | .clear => DNSCache.clear c
  | .load now file => (DNSCachePersistor.load now c file).1

/-- Run a sequence of cache operations. -/
def runOps (c : DNSCache) (ops : List CacheOp) : DNSCache :=
  ops.foldl applyOp c

theorem applyOp_bound (c : DNSCache) (op : CacheOp) (hmax : 1 ≤ c.max_size)
    (hle : c.entries.length ≤ c.max_size) :
    (applyOp c op).entries.length ≤ c.max_size ∧
    (applyOp c op).max_size = c.max_size := by
  cases op with
  | update now h ips =>
    exact ⟨DNSCache.update_size_le now c h ips hmax hle,
      DNSCache.update_max_size now c h ips⟩
  | get now h =>
    exact ⟨le_trans (DNSCache.get_size_le now c h) hle, DNSCache.get_max_size now c h⟩
  | remove h =>
    exact ⟨le_trans (List.length_filter_le _ _) hle, rfl⟩
  | clear =>
    exact ⟨Nat.zero_le _, rfl⟩
  | load now file =>
    exact load_bound now c file hmax hle

theorem runOps_bound :
    ∀ (ops : List CacheOp) (c : DNSCache), 1 ≤ c.max_size →
      c.entries.length ≤ c.max_size →
      (runOps c ops).entries.length ≤ c.max_size ∧
      (runOps c ops).max_size = c.max_size
  | [], _, _, hle => ⟨hle, rfl⟩
  | op :: ops, c, hmax, hle => by
    simp only [runOps, List.foldl]
    have h := applyOp_bound c op hmax hle
    have ih := runOps_bound ops (applyOp c op) (by rw [h.2]; exact hmax)
      (by rw [h.2]; exact h.1)
    rw [h.2] at ih
    exact ih

/-- C7: starting from a freshly constructed cache, no sequence of
cache operations (`update`, `get`, `remove`, `clear`, persistence
`load`) ever drives the entry count above `max_size` (10000); in
particular `update` is total — on a full cache it still succeeds,
evicting before inserting. -/
theorem cache_size_never_exceeds_max (ttl : Int) (ops : List CacheOp) :
    DNSCache.size (runOps (DNSCache.mkCache ttl) ops) ≤
      (runOps (DNSCache.mkCache ttl) ops).max_size ∧
    (runOps (DNSCache.mkCache ttl) ops).max_size = 10000 := by
  have h := runOps_bound ops (DNSCache.mkCache ttl)
    (by norm_num [DNSCache.mkCache]) (by norm_num [DNSCache.mkCache])
  refine ⟨?_, h.2⟩
  rw [DNSCache.size, h.2]
  exact h.1
